import Mathlib

/-!
Verification of the SuperBowl-Ad-Pulse scoring-and-decision pipeline.

Shallow embedding of:
- src/backend/core/scoring.py   (event scoring engine)
- src/backend/core/decision.py  (threshold decision layer)
- src/backend/services/gemini.py (response normalization, confidence gate)
- src/backend/api/routes.py     (analyze_segment orchestration)

Numbers: Python floats are modelled as rationals.  Every arithmetic value in
the scoring/decision path is a sum of small integers compared against the
fixed rational thresholds, so this is exact.  Python format specifiers such
as :.1f and :.2f in explanation strings are rendered from the exact rational
(integer-valued scores render identically to Python; this file never depends
on digit formatting).  Python str wrapping of names in single quotation
marks inside reason strings is omitted, since the quotation character is not
used in this development; no claim depends on it.

External collaborators (Gemini transport, Groq transport, SQLAlchemy
session) are modelled by their result values: the orchestrator is a function
of the perception result, the creative result and the database state.
-/

namespace SuperBowlAdPulse

/-! ### Python string primitives used by the source -/

/-- Python str.lower (ASCII case folding, as used on the ASCII keywords and
enum values in the source). -/
def strLower (s : String) : String := ⟨s.data.map Char.toLower⟩

/-- Drop leading whitespace characters from a character list. -/
def dropWs : List Char → List Char
  | [] => []
  | c :: cs => if c.isWhitespace then dropWs cs else c :: cs

/-- Python str.strip: remove leading and trailing whitespace. -/
def pyStrip (s : String) : String :=
  ⟨((dropWs s.data).reverse |> dropWs).reverse⟩

/-- Python str.replace with a single-character pattern, as in
replace(" ", "_") from gemini.py. -/
def replaceChar (s : String) (a b : Char) : String :=
  ⟨s.data.map (fun c => if c = a then b else c)⟩

/-- Does the pattern occur at the head of the list? -/
def startsWith : List Char → List Char → Bool
  | [], _ => true
  | _ :: _, [] => false
  | c :: cs, d :: ds => c == d && startsWith cs ds

/-- Does the pattern occur anywhere in the list? -/
def hasSub (pat : List Char) : List Char → Bool
  | [] => startsWith pat []
  | d :: ds => startsWith pat (d :: ds) || hasSub pat ds

/-- Python `pat in s` substring test. -/
def strContains (s pat : String) : Bool := hasSub pat.data s.data

/-- Python `s or d` for strings: d when s is empty (falsy), else s. -/
def pyOrStr (s d : String) : String := if s = "" then d else s

/-- Python `o or d` where o is an optional string (None or str). -/
def pyOr (o : Option String) (d : String) : String :=
  match o with
  | some s => if s = "" then d else s
  | none => d

/-- Python f-string interpolation of an optional string: None prints as
the word None. -/
def renderOpt (o : Option String) : String :=
  match o with
  | some s => s
  | none => "None"

/-- Python truthiness of an optional string (None and the empty string are
falsy). -/
def pyTruthy (o : Option String) : Bool :=
  match o with
  | some s => s ≠ ""
  | none => false

/-- "; ".join-style concatenation. -/
def joinSep (sep : String) : List String → String
  | [] => ""
  | [x] => x
  | x :: y :: ys => x ++ sep ++ joinSep sep (y :: ys)

/-- Python {:+d} formatting of an integer. -/
def fmtSigned (i : Int) : String :=
  if 0 ≤ i then "+" ++ toString i else toString i

/-- Python {:.1f} formatting of a pipeline score.  Scores produced by the
scoring engine are integer-valued, where this matches Python exactly;
other rationals are rendered exactly rather than rounded. -/
def fmt1f (q : ℚ) : String :=
  if q.den = 1 then toString q.num ++ ".0" else toString q

/-! ### Scoring engine — src/backend/core/scoring.py -/

/-- EVENT_TYPE_SCORES table (scoring.py lines 14-34), in source order. -/
def EVENT_TYPE_SCORES : List (String × Int) :=
  [("goal", 4), ("touchdown", 4), ("interception", 3), ("fumble", 3),
   ("big_play", 3), ("penalty", 1), ("tackle", 0), ("celebration", 2),
   ("timeout", -1), ("halftime", 1), ("injury", -1), ("unknown", -2)]

/-- INTENSITY_SCORES table (scoring.py lines 37-41). -/
def INTENSITY_SCORES : List (String × Int) :=
  [("high", 2), ("medium", 1), ("low", 0)]

/-- CROWD_KEYWORDS table (scoring.py lines 44-52), in Python dict insertion
order, which is the iteration order of the scan loop. -/
def CROWD_KEYWORDS : List (String × Int) :=
  [("loud", 2), ("roar", 2), ("cheer", 2), ("wild", 2),
   ("silent", -1), ("boo", 1), ("gasp", 1)]

def CONFIDENCE_PENALTY_THRESHOLD : ℚ := 1/2

def CONFIDENCE_PENALTY : Int := -3

/-- One entry of the reasons list returned by calculate_event_score.  The
Python code stores formatted strings; this embedding keeps the data the
string is formatted from (rule name and numeric contribution), with a
renderer below producing the string. -/
inductive Reason where
  | eventType (name : String) (amount : Int)
  | intensityMod (name : String) (amount : Int)
  | lowConfidence (confidence : ℚ) (amount : Int)
  | crowd (keyword : String) (amount : Int)
  | clamped (rawScore finalScore : ℚ)
deriving DecidableEq, Repr

/-- The numeric contribution a reason line records (the clamp note records
none). -/
def Reason.contribution : Reason → Int
  | .eventType _ a => a
  | .intensityMod _ a => a
  | .lowConfidence _ a => a
  | .crowd _ a => a
  | .clamped _ _ => 0

/-- Is this reason the crowd-reaction bonus line? -/
def Reason.isCrowd : Reason → Bool
  | .crowd _ _ => true
  | _ => false

/-- Rendering of a reason line as in scoring.py (format specifiers rendered
from the exact rational). -/
def Reason.render : Reason → String
  | .eventType name a => "Event type " ++ name ++ ": " ++ fmtSigned a
  | .intensityMod name a => "Intensity " ++ name ++ ": " ++ fmtSigned a
  | .lowConfidence c a => "Low confidence (" ++ toString c ++ "): " ++ fmtSigned a
  | .crowd kw a => "Crowd " ++ kw ++ ": " ++ fmtSigned a
  | .clamped r f => "Clamped from " ++ fmt1f r ++ " to " ++ fmt1f f

/-- The first crowd keyword (in table order) occurring in the lowercased
crowd text — the loop of scoring.py lines 101-105. -/
def findCrowd (crowdLower : String) : Option (String × Int) :=
  CROWD_KEYWORDS.find? (fun p => strContains crowdLower p.1)

/-- calculate_event_score (scoring.py lines 59-114). -/
def calculate_event_score (event_type intensity : String) (confidence : ℚ)
    (crowd_reaction : String := "") : ℚ × List Reason :=
  let event_type_lower := strLower event_type
  let base_score : Int := (List.lookup event_type_lower EVENT_TYPE_SCORES).getD (-2)
  let score1 : ℚ := 0 + (base_score : ℚ)
  let reasons1 : List Reason := [Reason.eventType event_type_lower base_score]
  let intensity_lower := strLower intensity
  let intensity_score : Int := (List.lookup intensity_lower INTENSITY_SCORES).getD 0
  let score2 : ℚ := score1 + (intensity_score : ℚ)
  let reasons2 : List Reason :=
    if intensity_score ≠ 0 then reasons1 ++ [Reason.intensityMod intensity_lower intensity_score]
    else reasons1
  let score3 : ℚ :=
    if confidence < CONFIDENCE_PENALTY_THRESHOLD then score2 + (CONFIDENCE_PENALTY : ℚ)
    else score2
  let reasons3 : List Reason :=
    if confidence < CONFIDENCE_PENALTY_THRESHOLD then
      reasons2 ++ [Reason.lowConfidence confidence CONFIDENCE_PENALTY]
    else reasons2
  let crowdHit : Option (String × Int) :=
    if crowd_reaction ≠ "" then findCrowd (strLower crowd_reaction) else none
  let score4 : ℚ :=
    match crowdHit with
    | some p => score3 + (p.2 : ℚ)
    | none => score3
  let reasons4 : List Reason :=
    match crowdHit with
    | some p => reasons3 ++ [Reason.crowd p.1 p.2]
    | none => reasons3
  let raw_score := score4
  let final_score := max 0 (min 10 raw_score)
  let reasons5 : List Reason :=
    if raw_score ≠ final_score then reasons4 ++ [Reason.clamped raw_score final_score]
    else reasons4
  (final_score, reasons5)

/-! ### Decision layer — src/backend/core/decision.py -/

/-- The Literal urgency type of the Decision dataclass. -/
inductive Urgency where
  | ignore
  | soft
  | aggressive
deriving DecidableEq, Repr

/-- Urgency as the string stored in the database / API payloads. -/
def Urgency.str : Urgency → String
  | .ignore => "ignore"
  | .soft => "soft"
  | .aggressive => "aggressive"

/-- Ad-eagerness ordering on urgency tiers: ignore < soft < aggressive. -/
def Urgency.rank : Urgency → Nat
  | .ignore => 0
  | .soft => 1
  | .aggressive => 2

/-- Decision dataclass (decision.py lines 16-24). -/
structure Decision where
  generate_ad : Bool
  urgency : Urgency
  reason : String
deriving DecidableEq, Repr

def THRESHOLD_IGNORE : ℚ := 4

def THRESHOLD_AGGRESSIVE : ℚ := 7

/-- make_decision (decision.py lines 35-71). -/
def make_decision (score : ℚ) (event_type : String := "") : Decision :=
  if score < THRESHOLD_IGNORE then
    { generate_ad := false
      urgency := .ignore
      reason := "Score " ++ fmt1f score ++ " below threshold (4.0). Event type: "
        ++ pyOrStr event_type "unknown" }
  else if score ≥ THRESHOLD_AGGRESSIVE then
    { generate_ad := true
      urgency := .aggressive
      reason := "Score " ++ fmt1f score ++ " >= 7.0: HIGH-VALUE moment. Event type: "
        ++ pyOrStr event_type "unknown" ++ ". Aggressive ad recommended." }
  else
    { generate_ad := true
      urgency := .soft
      reason := "Score " ++ fmt1f score ++ " in moderate range [4.0-7.0). Event type: "
        ++ pyOrStr event_type "unknown" ++ ". Soft ad recommended." }

/-! ### Perception normalization — src/backend/services/gemini.py -/

/-- GeminiAnalysisResult dataclass (gemini.py lines 23-34). -/
structure GeminiAnalysisResult where
  success : Bool
  event_type : String := "unknown"
  intensity : String := "low"
  summary : String := ""
  crowd_reaction : String := ""
  confidence : ℚ := 0
  raw_response : String := ""
  latency_ms : Int := 0
  error : Option String := none
deriving DecidableEq, Repr

/-- The known event types of GeminiService._normalize_event_type
(gemini.py lines 231-235). -/
def known_types : List String :=
  ["goal", "touchdown", "tackle", "interception", "fumble",
   "penalty", "big_play", "injury", "halftime", "timeout",
   "celebration", "unknown"]

/-- The lower/strip/underscore canonicalization applied before the
enumeration membership test (gemini.py line 236). -/
def canonicalEventType (event_type : String) : String :=
  replaceChar (pyStrip (strLower event_type)) ' ' '_'

/-- GeminiService._normalize_event_type (gemini.py lines 228-237). -/
def normalize_event_type (event_type : String) : String :=
  let normalized := canonicalEventType event_type
  if known_types.contains normalized then normalized else "unknown"

/-- GeminiService._normalize_intensity (gemini.py lines 239-245). -/
def normalize_intensity (intensity : String) : String :=
  let intensity_lower := pyStrip (strLower intensity)
  if (["low", "medium", "high"] : List String).contains intensity_lower then intensity_lower
  else "low"

/-- GeminiService._clamp_confidence (gemini.py lines 247-254).  The
argument models the Python float(confidence) attempt: some q when the raw
JSON value converts to the real number q, none when conversion raises
ValueError or TypeError. -/
def clamp_confidence (parsed : Option ℚ) : ℚ :=
  match parsed with
  | some conf => max 0 (min 1 conf)
  | none => 0

def CONFIDENCE_THRESHOLD : ℚ := 2/5

/-- The error message of the confidence gate (gemini.py line 206); Python
formats the confidence with :.2f, rendered here from the exact rational. -/
def confidenceBelowMsg (conf : ℚ) : String :=
  "Confidence " ++ toString conf ++ " below threshold 0.4"

/-- The fields of the JSON object produced by json.loads in
GeminiService._parse_response, after the dict .get defaults: a missing
event_type defaults to unknown, intensity to low, summary and
crowd_reaction to the empty string, confidence to 0.0. -/
structure PerceptionData where
  event_type : String := "unknown"
  intensity : String := "low"
  summary : String := ""
  crowd_reaction : String := ""
  confidence : Option ℚ := some 0
deriving DecidableEq, Repr

/-- Outcome of locating and json.loads-parsing the (possibly code-fenced)
response text: ok with the field data, or the decode-error message. -/
inductive ParseOutcome where
  | ok (data : PerceptionData)
  | fail (msg : String)
deriving DecidableEq, Repr

/-- GeminiService._parse_response (gemini.py lines 173-226), as a function
of the JSON parse outcome. -/
def parse_response (outcome : ParseOutcome) (raw_text : String)
    (latency_ms : Int) : GeminiAnalysisResult :=
  match outcome with
  | .fail e =>
      { success := false
        raw_response := raw_text
        latency_ms := latency_ms
        error := some ("JSON parse error: " ++ e) }
  | .ok data =>
      let event_type := normalize_event_type data.event_type
      let intensity := normalize_intensity data.intensity
      let confidence := clamp_confidence data.confidence
      if confidence < CONFIDENCE_THRESHOLD then
        { success := false
          event_type := event_type
          intensity := intensity
          summary := data.summary
          crowd_reaction := data.crowd_reaction
          confidence := confidence
          raw_response := raw_text
          latency_ms := latency_ms
          error := some (confidenceBelowMsg confidence) }
      else
        { success := true
          event_type := event_type
          intensity := intensity
          summary := data.summary
          crowd_reaction := data.crowd_reaction
          confidence := confidence
          raw_response := raw_text
          latency_ms := latency_ms
          error := none }

/-! ### Creative service result — src/backend/services/groq.py -/

/-- AdGenerationResult dataclass (groq.py lines 24-36); the hashtag list is
kept as a list (routes.py serializes it with json.dumps when storing). -/
structure AdGenerationResult where
  success : Bool
  ad_copy : String := ""
  promo_suggestion : String := ""
  social_hashtags : List String := []
  latency_ms : Int := 0
  error : Option String := none
deriving DecidableEq, Repr

/-! ### Orchestration — src/backend/api/routes.py analyze_segment -/

/-- AnalyzeSegmentRequest (schemas.py lines 15-27). -/
structure AnalyzeSegmentRequest where
  start_sec : Int
  end_sec : Int
  video_uri : Option String := none
  business_name : String := ""
  business_type : String := ""
deriving DecidableEq, Repr

/-- The events row written by analyze_segment (models.py Event, as
populated in routes.py). -/
structure EventRecord where
  start_sec : Int
  end_sec : Int
  event_type : String
  intensity : String
  summary : String
  crowd_reaction : Option String := none
  confidence : ℚ
  score : ℚ
  generate_ad : Bool
  urgency : String
  raw_response : String
  gemini_latency_ms : Int
deriving DecidableEq, Repr

/-- The ads row written by analyze_segment (models.py Ad, as populated in
routes.py; the hashtags are stored by Python as a json.dumps string,
modelled by the list itself). -/
structure AdRecord where
  ad_copy : String
  promo_suggestion : String
  social_hashtags : List String
  urgency : String
  business_name : String
  business_type : String
  groq_latency_ms : Int
deriving DecidableEq, Repr

/-- The persistence store: the two tables touched by analyze_segment,
append-only within one call. -/
structure DB where
  events : List EventRecord := []
  ads : List AdRecord := []
deriving DecidableEq, Repr

/-- AnalysisResult response schema (schemas.py lines 107-111). -/
structure AnalysisResult where
  event : EventRecord
  ad : Option AdRecord
  decision_reason : String
deriving DecidableEq, Repr

/-- An HTTPException raised to the caller. -/
structure HttpError where
  status : Nat
  detail : String
deriving DecidableEq, Repr

/-- Resolution of the video URI: the request override if truthy, else the
module-level state (routes.py lines 120-123). -/
def resolvedUri (req : AnalyzeSegmentRequest) (stateUri : Option String) :
    Option String :=
  if pyTruthy req.video_uri then req.video_uri else stateUri

/-- The discarded events row of the perception-failure path
(routes.py lines 133-145). -/
def discardRecord (req : AnalyzeSegmentRequest) (analysis : GeminiAnalysisResult) :
    EventRecord :=
  { start_sec := req.start_sec
    end_sec := req.end_sec
    event_type := "unknown"
    intensity := "low"
    summary := pyOr analysis.error "Analysis failed"
    confidence := analysis.confidence
    score := 0
    generate_ad := false
    urgency := "ignore"
    raw_response := analysis.raw_response
    gemini_latency_ms := analysis.latency_ms }

/-- Step 2 of the pipeline: the scoring-engine call of routes.py
lines 157-162. -/
def pipelineScore (analysis : GeminiAnalysisResult) : ℚ × List Reason :=
  calculate_event_score analysis.event_type analysis.intensity
    analysis.confidence analysis.crowd_reaction

/-- Step 3 of the pipeline: the decision-layer call of routes.py
line 165. -/
def pipelineDecision (analysis : GeminiAnalysisResult) : Decision :=
  make_decision (pipelineScore analysis).1 analysis.event_type

/-- The scored events row of the success path (routes.py lines 168-181). -/
def scoredRecord (req : AnalyzeSegmentRequest) (analysis : GeminiAnalysisResult) :
    EventRecord :=
  { start_sec := req.start_sec
    end_sec := req.end_sec
    event_type := analysis.event_type
    intensity := analysis.intensity
    summary := analysis.summary
    crowd_reaction := some analysis.crowd_reaction
    confidence := analysis.confidence
    score := (pipelineScore analysis).1
    generate_ad := (pipelineDecision analysis).generate_ad
    urgency := (pipelineDecision analysis).urgency.str
    raw_response := analysis.raw_response
    gemini_latency_ms := analysis.latency_ms }

/-- The ads row written when the creative call succeeds (routes.py
lines 199-208). -/
def adRecordOf (req : AnalyzeSegmentRequest) (analysis : GeminiAnalysisResult)
    (adResult : AdGenerationResult) : AdRecord :=
  { ad_copy := adResult.ad_copy
    promo_suggestion := adResult.promo_suggestion
    social_hashtags := adResult.social_hashtags
    urgency := (pipelineDecision analysis).urgency.str
    business_name := req.business_name
    business_type := req.business_type
    groq_latency_ms := adResult.latency_ms }

/-- The combined explanation string of the success path (routes.py
lines 214-216): the decision reason joined with the itemized score
breakdown. -/
def successExplanation (analysis : GeminiAnalysisResult) : String :=
  (pipelineDecision analysis).reason ++ " | "
    ++ ("Score breakdown: " ++ joinSep "; " ((pipelineScore analysis).2.map Reason.render))

/-- analyze_segment (routes.py lines 103-222), as a function of the request,
the module-level video-URI state, the database state, the perception result
and the creative result.  The creative result argument is consulted only
when the decision requests an ad, mirroring the conditional Groq call. -/
def analyze_segment (req : AnalyzeSegmentRequest) (stateUri : Option String)
    (db : DB) (analysis : GeminiAnalysisResult) (adResult : AdGenerationResult) :
    Except HttpError (AnalysisResult × DB) :=
  if pyTruthy (resolvedUri req stateUri) = false then
    Except.error { status := 400, detail := "No video uploaded. Upload first." }
  else if analysis.success = false then
    Except.ok
      ({ event := discardRecord req analysis
         ad := none
         decision_reason := "Segment discarded: " ++ renderOpt analysis.error },
       { db with events := db.events ++ [discardRecord req analysis] })
  else
    let event := scoredRecord req analysis
    let db1 : DB := { db with events := db.events ++ [event] }
    if (pipelineDecision analysis).generate_ad = true then
      if adResult.success = true then
        let ad := adRecordOf req analysis adResult
        Except.ok
          ({ event := event, ad := some ad,
             decision_reason := successExplanation analysis },
           { db1 with ads := db1.ads ++ [ad] })
      else
        Except.ok
          ({ event := event, ad := none,
             decision_reason := successExplanation analysis }, db1)
    else
      Except.ok
        ({ event := event, ad := none,
           decision_reason := successExplanation analysis }, db1)

/-! ### Concrete sample inputs used by witnesses and counterexamples -/

/-- A well-formed analyze-segment request with an explicit video URI. -/
def reqDemo : AnalyzeSegmentRequest :=
  { start_sec := 0
    end_sec := 10
    video_uri := some "files/demo-video"
    business_name := "Tonys Pizza"
    business_type := "restaurant" }

/-- A successful perception result: high-confidence touchdown. -/
def anTouchdown : GeminiAnalysisResult :=
  { success := true
    event_type := "touchdown"
    intensity := "high"
    summary := "35 yard touchdown run"
    crowd_reaction := ""
    confidence := 1
    raw_response := "raw json"
    latency_ms := 1200 }

/-- A transport-level perception failure. -/
def anTransportFail : GeminiAnalysisResult :=
  { success := false
    raw_response := ""
    latency_ms := 900
    error := some "transport error 503" }

/-- A failed creative call. -/
def adFailA : AdGenerationResult :=
  { success := false, latency_ms := 40, error := some "GROQBOOM" }

/-- A failed creative call with a different error message. -/
def adFailB : AdGenerationResult :=
  { success := false, latency_ms := 40, error := some "creative timeout" }

/-- An idle creative result (never consulted on discard paths). -/
def adIdle : AdGenerationResult := { success := false }

/-- Parsed perception data whose confidence is below the 0.4 gate. -/
def dataLowConf : PerceptionData :=
  { event_type := "goal"
    intensity := "high"
    summary := "several replays of a goal"
    crowd_reaction := "cheering"
    confidence := some 0 }

/-! ### Shared helper lemmas -/

theorem data_append (a b : String) : (a ++ b).data = a.data ++ b.data := rfl

theorem confidenceBelowMsg_ne (q : ℚ) : ¬ (confidenceBelowMsg q = "") := by
  intro h
  have h3 := congrArg (fun s : String => s.data.length) h
  simp only [confidenceBelowMsg, data_append, List.length_append] at h3
  have l1 : ("Confidence " : String).data.length = 11 := by decide
  have l0 : ("" : String).data.length = 0 := by decide
  rw [l1, l0] at h3
  omega

/-! ### Claims -/

/-- C1: for every input (any event_type string, any intensity string, any
rational confidence, any crowd_reaction string), the score returned by
calculate_event_score lies in [0,10]. -/
theorem C1_score_in_range (event_type intensity : String) (confidence : ℚ)
    (crowd_reaction : String) :
    0 ≤ (calculate_event_score event_type intensity confidence crowd_reaction).1 ∧
    (calculate_event_score event_type intensity confidence crowd_reaction).1 ≤ 10 := by
  obtain ⟨S, hS⟩ : ∃ S, (calculate_event_score event_type intensity confidence crowd_reaction).1
      = max 0 (min 10 S) := ⟨_, rfl⟩
  rw [hS]
  exact ⟨le_max_left 0 _, max_le (by norm_num) (min_le_left 10 _)⟩

/-- C2: make_decision maps score to bands with inclusive lower bounds:
score < 4 yields ignore with generate_ad false, 4 ≤ score < 7 yields soft
with generate_ad true, score ≥ 7 yields aggressive with generate_ad true;
in particular 4.0 is soft, 3.999 is ignore, 7.0 is aggressive and 6.999 is
soft. -/
theorem C2_decision_bands :
    (∀ (s : ℚ) (et : String),
      ((make_decision s et).urgency = Urgency.ignore ↔ s < 4) ∧
      ((make_decision s et).generate_ad = false ↔ s < 4) ∧
      ((make_decision s et).urgency = Urgency.soft ↔ 4 ≤ s ∧ s < 7) ∧
      ((make_decision s et).generate_ad = true ↔ 4 ≤ s) ∧
      ((make_decision s et).urgency = Urgency.aggressive ↔ 7 ≤ s)) ∧
    (make_decision 4 "tackle").urgency = Urgency.soft ∧
    (make_decision (3999/1000) "tackle").urgency = Urgency.ignore ∧
    (make_decision 7 "goal").urgency = Urgency.aggressive ∧
    (make_decision (6999/1000) "goal").urgency = Urgency.soft := by
  refine ⟨?_, ?_, ?_, ?_, ?_⟩
  · intro s et
    unfold make_decision THRESHOLD_IGNORE THRESHOLD_AGGRESSIVE
    split_ifs with h1 h2
    · exact ⟨by simpa using h1, by simpa using h1,
        by simp; intro hs; linarith,
        by simp; linarith,
        by simp; linarith⟩
    · exact ⟨by simp; linarith, by simp; linarith,
        by simp; intro hs; linarith,
        by simp; linarith,
        by simpa using h2⟩
    · exact ⟨by simp; linarith, by simp; linarith,
        by simp; exact ⟨by linarith, by linarith⟩,
        by simp; linarith,
        by simp; linarith⟩
  · norm_num [make_decision, THRESHOLD_IGNORE, THRESHOLD_AGGRESSIVE]
  · norm_num [make_decision, THRESHOLD_IGNORE, THRESHOLD_AGGRESSIVE]
  · norm_num [make_decision, THRESHOLD_IGNORE, THRESHOLD_AGGRESSIVE]
  · norm_num [make_decision, THRESHOLD_IGNORE, THRESHOLD_AGGRESSIVE]

/-- C3: every Decision returned by make_decision satisfies
generate_ad = (urgency ≠ ignore). -/
theorem C3_generate_ad_iff_not_ignore (s : ℚ) (et : String) :
    (make_decision s et).generate_ad = true ↔ (make_decision s et).urgency ≠ Urgency.ignore := by
  unfold make_decision
  split_ifs <;> simp

/-- C8: make_decision is monotone in score: for a ≥ b the urgency of
decide(a) is never lower in ad-eagerness (ignore < soft < aggressive) than
the urgency of decide(b). -/
theorem C8_decision_monotone (a b : ℚ) (eta etb : String) (h : b ≤ a) :
    ((make_decision b etb).urgency).rank ≤ ((make_decision a eta).urgency).rank := by
  unfold make_decision THRESHOLD_IGNORE THRESHOLD_AGGRESSIVE
  split_ifs <;> simp [Urgency.rank] <;> linarith

/-- Witness for C8 at the concrete pair 3 ≤ 5. -/
theorem C8_decision_monotone_witness :
    (3:ℚ) ≤ 5 ∧
    ((make_decision 3 "timeout").urgency).rank ≤ ((make_decision 5 "penalty").urgency).rank := by
  have h : (3:ℚ) ≤ 5 := by norm_num
  exact ⟨h, C8_decision_monotone 5 3 "penalty" "timeout" h⟩

/-- C9: field-level normalization is total: any event_type whose
canonical form (lowered, stripped, spaces underscored) is outside the
closed enumeration maps to unknown and the result is always inside the
enumeration; any intensity outside low/medium/high maps to low; confidence
is clamped to [0,1], defaulting to 0 when float conversion fails. -/
theorem C9_normalization_total :
    (∀ s : String, known_types.contains (normalize_event_type s) = true) ∧
    (∀ s : String, known_types.contains (canonicalEventType s) = false →
      normalize_event_type s = "unknown") ∧
    (∀ s : String, (["low", "medium", "high"] : List String).contains (normalize_intensity s) = true) ∧
    (∀ s : String, (["low", "medium", "high"] : List String).contains (pyStrip (strLower s)) = false →
      normalize_intensity s = "low") ∧
    (∀ p : Option ℚ, 0 ≤ clamp_confidence p ∧ clamp_confidence p ≤ 1) ∧
    (∀ q : ℚ, clamp_confidence (some q) = max 0 (min 1 q)) ∧
    clamp_confidence none = 0 := by
  refine ⟨?_, ?_, ?_, ?_, ?_, fun q => rfl, rfl⟩
  · intro s
    cases hc : known_types.contains (canonicalEventType s) with
    | false =>
        simp only [normalize_event_type, hc, Bool.false_eq_true, if_false]
        decide
    | true =>
        simp only [normalize_event_type, hc, eq_self_iff_true, if_true]
  · intro s h
    simp only [normalize_event_type, h, Bool.false_eq_true, if_false]
  · intro s
    cases hc : (["low", "medium", "high"] : List String).contains (pyStrip (strLower s)) with
    | false =>
        simp only [normalize_intensity, hc, Bool.false_eq_true, if_false]
        decide
    | true =>
        simp only [normalize_intensity, hc, eq_self_iff_true, if_true]
  · intro s h
    simp only [normalize_intensity, h, Bool.false_eq_true, if_false]
  · intro p
    cases p with
    | none => exact ⟨le_refl 0, by norm_num [clamp_confidence]⟩
    | some q => exact ⟨le_max_left 0 _, max_le (by norm_num) (min_le_left 1 q)⟩

/-- Witness for C9 at concrete out-of-enumeration inputs. -/
theorem C9_normalization_total_witness :
    normalize_event_type "Replay Review!" = "unknown" ∧
    normalize_intensity " EXTREME " = "low" ∧
    (0 ≤ clamp_confidence (some 5) ∧ clamp_confidence (some 5) ≤ 1) :=
  ⟨C9_normalization_total.2.1 "Replay Review!" (by decide),
   C9_normalization_total.2.2.2.1 " EXTREME " (by decide),
   C9_normalization_total.2.2.2.2.1 (some 5)⟩

/-- C6: summing the numeric contributions listed in the returned reasons
and clamping the sum to [0,10] reproduces the returned score exactly. -/
theorem C6_reasons_sum_reproduces_score (event_type intensity : String)
    (confidence : ℚ) (crowd_reaction : String) :
    max 0 (min 10
      ((((calculate_event_score event_type intensity confidence crowd_reaction).2.map
          Reason.contribution).sum : Int) : ℚ))
      = (calculate_event_score event_type intensity confidence crowd_reaction).1 := by
  simp only [calculate_event_score]
  rcases hfind : (if crowd_reaction ≠ "" then findCrowd (strLower crowd_reaction) else none)
    with _ | ⟨kw, b⟩ <;>
    simp only [hfind] <;>
    generalize (List.lookup (strLower intensity) INTENSITY_SCORES).getD 0 = i <;>
    by_cases hint : i = 0 <;>
    (try subst hint) <;>
    (try rw [if_pos hint]) <;>
    split_ifs <;>
    simp [Reason.contribution] <;>
    (try push_cast) <;>
    ring_nf

/-- C7: crowd-reaction matching is a case-insensitive substring scan over
the fixed ordered keyword table, the first matching keyword in table order
wins, at most one bonus is applied even when several keywords occur, and a
reason is recorded exactly when a match occurs. -/
theorem C7_crowd_bonus_first_match_at_most_once (event_type intensity : String)
    (confidence : ℚ) (crowd_reaction : String) :
    ((calculate_event_score event_type intensity confidence crowd_reaction).2.countP
        Reason.isCrowd ≤ 1) ∧
    (((calculate_event_score event_type intensity confidence crowd_reaction).2.countP
        Reason.isCrowd = 1) ↔
      (crowd_reaction ≠ "" ∧ (findCrowd (strLower crowd_reaction)).isSome = true)) ∧
    (∀ kw bonus, findCrowd (strLower crowd_reaction) = some (kw, bonus) → crowd_reaction ≠ "" →
      Reason.crowd kw bonus ∈ (calculate_event_score event_type intensity confidence crowd_reaction).2) ∧
    (∀ s : String, findCrowd s =
      if strContains s "loud" = true then some ("loud", 2)
      else if strContains s "roar" = true then some ("roar", 2)
      else if strContains s "cheer" = true then some ("cheer", 2)
      else if strContains s "wild" = true then some ("wild", 2)
      else if strContains s "silent" = true then some ("silent", -1)
      else if strContains s "boo" = true then some ("boo", 1)
      else if strContains s "gasp" = true then some ("gasp", 1)
      else none) := by
  refine ⟨?_, ?_, ?_, ?_⟩
  · simp only [calculate_event_score]
    rcases hfind : (if crowd_reaction ≠ "" then findCrowd (strLower crowd_reaction) else none)
      with _ | ⟨kw, b⟩ <;>
      simp only [hfind] <;>
      split_ifs <;>
      simp [List.countP_append, List.countP_cons, Reason.isCrowd]
  · simp only [calculate_event_score]
    by_cases hcr : crowd_reaction = ""
    · rcases hfind : (if crowd_reaction ≠ "" then findCrowd (strLower crowd_reaction) else none)
        with _ | ⟨kw, b⟩
      · simp only [hfind]
        split_ifs <;>
          simp [List.countP_append, List.countP_cons, Reason.isCrowd, hcr]
      · rw [if_neg (by simp [hcr])] at hfind
        exact absurd hfind (by simp)
    · rcases hfind : (if crowd_reaction ≠ "" then findCrowd (strLower crowd_reaction) else none)
        with _ | ⟨kw, b⟩
      · have hf2 : findCrowd (strLower crowd_reaction) = none := by
          rwa [if_pos hcr] at hfind
        simp only [hfind]
        split_ifs <;>
          simp [List.countP_append, List.countP_cons, Reason.isCrowd, hcr, hf2]
      · have hf2 : findCrowd (strLower crowd_reaction) = some (kw, b) := by
          rwa [if_pos hcr] at hfind
        simp only [hfind]
        split_ifs <;>
          simp [List.countP_append, List.countP_cons, Reason.isCrowd, hcr, hf2]
  · intro kw bonus hf hcr
    simp only [calculate_event_score]
    rw [if_pos hcr, hf]
    split_ifs <;> simp
  · intro s
    simp only [findCrowd, CROWD_KEYWORDS]
    split_ifs with a1 a2 a3 a4 a5 a6 a7 <;> simp_all [List.find?]

/-- Witness for C7 at a crowd string containing several keywords: only the
first keyword in table order (loud) is applied. -/
theorem C7_crowd_bonus_witness :
    findCrowd (strLower "Loud boos then silence") = some ("loud", 2) ∧
    Reason.crowd "loud" 2 ∈
      (calculate_event_score "goal" "high" 1 "Loud boos then silence").2 ∧
    ((calculate_event_score "goal" "high" 1 "Loud boos then silence").2.countP
        Reason.isCrowd ≤ 1) := by
  have hf : findCrowd (strLower "Loud boos then silence") = some ("loud", 2) := by decide
  exact ⟨hf,
    (C7_crowd_bonus_first_match_at_most_once "goal" "high" 1 "Loud boos then silence").2.2.1
      "loud" 2 hf (by decide),
    (C7_crowd_bonus_first_match_at_most_once "goal" "high" 1 "Loud boos then silence").1⟩

/-! ### Pipeline helper lemmas -/

theorem analyze_segment_discard_eq (req : AnalyzeSegmentRequest) (su : Option String)
    (db : DB) (an : GeminiAnalysisResult) (adr : AdGenerationResult)
    (h1 : pyTruthy (resolvedUri req su) = true) (h2 : an.success = false) :
    analyze_segment req su db an adr =
      Except.ok
        ({ event := discardRecord req an, ad := none,
           decision_reason := "Segment discarded: " ++ renderOpt an.error },
         { db with events := db.events ++ [discardRecord req an] }) := by
  simp [analyze_segment, h1, h2]

theorem analyze_segment_creative_fail_eq (req : AnalyzeSegmentRequest) (su : Option String)
    (db : DB) (an : GeminiAnalysisResult) (adr : AdGenerationResult)
    (h1 : pyTruthy (resolvedUri req su) = true) (h2 : an.success = true)
    (h3 : (pipelineDecision an).generate_ad = true) (h4 : adr.success = false) :
    analyze_segment req su db an adr =
      Except.ok
        ({ event := scoredRecord req an, ad := none,
           decision_reason := successExplanation an },
         { db with events := db.events ++ [scoredRecord req an] }) := by
  simp [analyze_segment, h1, h2, h3, h4]

theorem strLower_touchdown : strLower "touchdown" = "touchdown" := by decide

theorem strLower_high : strLower "high" = "high" := by decide

theorem lookup_touchdown : (List.lookup "touchdown" EVENT_TYPE_SCORES).getD (-2) = 4 := by
  decide

theorem lookup_high : (List.lookup "high" INTENSITY_SCORES).getD 0 = 2 := by decide

theorem calc_touchdown :
    calculate_event_score "touchdown" "high" 1 "" =
      (6, [Reason.eventType "touchdown" 4, Reason.intensityMod "high" 2]) := by
  have hconf : ¬ ((1:ℚ) < CONFIDENCE_PENALTY_THRESHOLD) := by
    norm_num [CONFIDENCE_PENALTY_THRESHOLD]
  norm_num [calculate_event_score, strLower_touchdown, strLower_high, lookup_touchdown,
    lookup_high, hconf, CONFIDENCE_PENALTY, min_def, max_def]

theorem pipelineScore_anTouchdown :
    pipelineScore anTouchdown =
      (6, [Reason.eventType "touchdown" 4, Reason.intensityMod "high" 2]) := by
  simp only [pipelineScore, anTouchdown]
  exact calc_touchdown

theorem genAd_anTouchdown : (pipelineDecision anTouchdown).generate_ad = true := by
  unfold pipelineDecision
  rw [pipelineScore_anTouchdown]
  norm_num [make_decision, THRESHOLD_IGNORE, THRESHOLD_AGGRESSIVE]

/-! ### Pipeline claims -/

/-- C5: whenever the perception step fails (transport error, parse failure,
or confidence below the perception threshold — all of which surface as a
non-success perception result), analyze_segment persists a discarded record
with score 0, generate_ad false and urgency ignore, and returns a normal
result naming the discard reason instead of raising. -/
theorem C5_perception_failure_discards (req : AnalyzeSegmentRequest)
    (su : Option String) (db : DB) (an : GeminiAnalysisResult)
    (adr : AdGenerationResult)
    (h1 : pyTruthy (resolvedUri req su) = true) (h2 : an.success = false) :
    analyze_segment req su db an adr =
      Except.ok
        ({ event := discardRecord req an, ad := none,
           decision_reason := "Segment discarded: " ++ renderOpt an.error },
         { db with events := db.events ++ [discardRecord req an] }) ∧
    (discardRecord req an).score = 0 ∧
    (discardRecord req an).generate_ad = false ∧
    (discardRecord req an).urgency = "ignore" ∧
    (∀ msg raw lat, (parse_response (ParseOutcome.fail msg) raw lat).success = false) ∧
    (∀ data raw lat, clamp_confidence data.confidence < CONFIDENCE_THRESHOLD →
      (parse_response (ParseOutcome.ok data) raw lat).success = false) := by
  refine ⟨analyze_segment_discard_eq req su db an adr h1 h2, rfl, rfl, rfl,
    fun msg raw lat => rfl, fun data raw lat h => ?_⟩
  simp [parse_response, h]

/-- Witness for C5 at a concrete transport failure. -/
theorem C5_perception_failure_witness :
    pyTruthy (resolvedUri reqDemo none) = true ∧
    anTransportFail.success = false ∧
    analyze_segment reqDemo none { events := [], ads := [] } anTransportFail adIdle =
      Except.ok
        ({ event := discardRecord reqDemo anTransportFail, ad := none,
           decision_reason := "Segment discarded: " ++ renderOpt anTransportFail.error },
         { events := [discardRecord reqDemo anTransportFail], ads := [] }) ∧
    (discardRecord reqDemo anTransportFail).score = 0 ∧
    (parse_response (ParseOutcome.fail "Expecting value") "not json" 5).success = false := by
  have h1 : pyTruthy (resolvedUri reqDemo none) = true := by decide
  have w := C5_perception_failure_discards reqDemo none { events := [], ads := [] }
    anTransportFail adIdle h1 rfl
  exact ⟨h1, rfl, by simpa using w.1, w.2.1, w.2.2.2.2.1 "Expecting value" "not json" 5⟩

/-- C10: a successfully parsed perception payload whose confidence is below
the 0.4 gate produces a non-success result, and the persisted discarded
record stores event_type unknown and intensity low regardless of the parsed
values and the threshold-violation message as its summary — the parsed
event_type, intensity and summary are dropped, leaving those fields equal to
the ones a transport failure produces. -/
theorem C10_low_confidence_discard_fields (data : PerceptionData) (raw : String)
    (lat : Int) (req : AnalyzeSegmentRequest) (su : Option String) (db : DB)
    (adr : AdGenerationResult)
    (h1 : pyTruthy (resolvedUri req su) = true)
    (h2 : clamp_confidence data.confidence < CONFIDENCE_THRESHOLD) :
    (parse_response (ParseOutcome.ok data) raw lat).success = false ∧
    analyze_segment req su db (parse_response (ParseOutcome.ok data) raw lat) adr =
      Except.ok
        ({ event := discardRecord req (parse_response (ParseOutcome.ok data) raw lat),
           ad := none,
           decision_reason := "Segment discarded: "
             ++ renderOpt (parse_response (ParseOutcome.ok data) raw lat).error },
         { db with events :=
            db.events ++ [discardRecord req (parse_response (ParseOutcome.ok data) raw lat)] }) ∧
    (discardRecord req (parse_response (ParseOutcome.ok data) raw lat)).event_type = "unknown" ∧
    (discardRecord req (parse_response (ParseOutcome.ok data) raw lat)).intensity = "low" ∧
    (discardRecord req (parse_response (ParseOutcome.ok data) raw lat)).summary
      = confidenceBelowMsg (clamp_confidence data.confidence) ∧
    (∀ msg raw2 lat2,
      (discardRecord req (parse_response (ParseOutcome.fail msg) raw2 lat2)).event_type
        = "unknown" ∧
      (discardRecord req (parse_response (ParseOutcome.fail msg) raw2 lat2)).intensity
        = "low") := by
  have hs : (parse_response (ParseOutcome.ok data) raw lat).success = false := by
    simp [parse_response, h2]
  have he : (parse_response (ParseOutcome.ok data) raw lat).error
      = some (confidenceBelowMsg (clamp_confidence data.confidence)) := by
    simp [parse_response, h2]
  refine ⟨hs,
    analyze_segment_discard_eq req su db (parse_response (ParseOutcome.ok data) raw lat) adr h1 hs,
    rfl, rfl, ?_, fun msg raw2 lat2 => ⟨rfl, rfl⟩⟩
  show pyOr (parse_response (ParseOutcome.ok data) raw lat).error "Analysis failed" = _
  rw [he]
  simp [pyOr, confidenceBelowMsg_ne]

/-- Witness for C10 at a parsed goal event with confidence 0. -/
theorem C10_low_confidence_discard_witness :
    clamp_confidence dataLowConf.confidence < CONFIDENCE_THRESHOLD ∧
    (parse_response (ParseOutcome.ok dataLowConf) "raw" 7).success = false ∧
    (discardRecord reqDemo (parse_response (ParseOutcome.ok dataLowConf) "raw" 7)).event_type
      = "unknown" ∧
    (discardRecord reqDemo (parse_response (ParseOutcome.ok dataLowConf) "raw" 7)).intensity
      = "low" ∧
    (discardRecord reqDemo (parse_response (ParseOutcome.ok dataLowConf) "raw" 7)).summary
      = confidenceBelowMsg (clamp_confidence dataLowConf.confidence) := by
  have hc : clamp_confidence dataLowConf.confidence < CONFIDENCE_THRESHOLD := by
    norm_num [clamp_confidence, dataLowConf, CONFIDENCE_THRESHOLD, min_def, max_def]
  have h1 : pyTruthy (resolvedUri reqDemo none) = true := by decide
  have w := C10_low_confidence_discard_fields dataLowConf "raw" 7 reqDemo none
    { events := [], ads := [] } adIdle h1 hc
  exact ⟨hc, w.1, w.2.2.1, w.2.2.2.1, w.2.2.2.2.1⟩

/-- C4, counterexample: at a concrete high-scoring touchdown with a failing
creative call, the returned value — explanation text included — is
identical for two different creative-failure messages and equals the
groq-independent successExplanation, no ad content is attached and no
pipeline error is raised.  The creative failure is therefore not surfaced
in the returned explanation text, contradicting the claim that it is
surfaced there. -/
theorem C4_creative_failure_counterexample :
    analyze_segment reqDemo none { events := [], ads := [] } anTouchdown adFailA =
      analyze_segment reqDemo none { events := [], ads := [] } anTouchdown adFailB ∧
    (analyze_segment reqDemo none { events := [], ads := [] } anTouchdown adFailA).toOption.map
        (fun r => (r.1.ad, r.2.ads, r.1.event.generate_ad, r.1.decision_reason))
      = some (none, [], true, successExplanation anTouchdown) ∧
    adFailA.success = false ∧ adFailB.success = false ∧ adFailA.error ≠ adFailB.error := by
  have h1 : pyTruthy (resolvedUri reqDemo none) = true := by decide
  have e1 := analyze_segment_creative_fail_eq reqDemo none { events := [], ads := [] }
    anTouchdown adFailA h1 rfl genAd_anTouchdown rfl
  have e2 := analyze_segment_creative_fail_eq reqDemo none { events := [], ads := [] }
    anTouchdown adFailB h1 rfl genAd_anTouchdown rfl
  refine ⟨e1.trans e2.symm, ?_, rfl, rfl, by decide⟩
  rw [e1]
  simp [Except.toOption, scoredRecord, genAd_anTouchdown]

/-- C4, amended: when the decision says generate_ad and the creative call
fails, the pipeline still persists the event record with its event, score
and decision fields populated, attaches no ad content, and returns a
normal result (never a pipeline-level error); the creative failure is not
mentioned in the returned explanation text, which consists only of the
decision reason and the score breakdown — the failure is observable to the
caller only through the absent ad content. -/
theorem C4_creative_failure_amended (req : AnalyzeSegmentRequest) (su : Option String)
    (db : DB) (an : GeminiAnalysisResult) (adr : AdGenerationResult)
    (h1 : pyTruthy (resolvedUri req su) = true) (h2 : an.success = true)
    (h3 : (pipelineDecision an).generate_ad = true) (h4 : adr.success = false) :
    analyze_segment req su db an adr =
      Except.ok
        ({ event := scoredRecord req an, ad := none,
           decision_reason := successExplanation an },
         { db with events := db.events ++ [scoredRecord req an] }) ∧
    (scoredRecord req an).event_type = an.event_type ∧
    (scoredRecord req an).score = (pipelineScore an).1 ∧
    (scoredRecord req an).generate_ad = true ∧
    (scoredRecord req an).urgency = (pipelineDecision an).urgency.str ∧
    successExplanation an = (pipelineDecision an).reason ++ " | "
      ++ ("Score breakdown: " ++ joinSep "; " ((pipelineScore an).2.map Reason.render)) := by
  refine ⟨analyze_segment_creative_fail_eq req su db an adr h1 h2 h3 h4,
    rfl, rfl, ?_, rfl, rfl⟩
  show (pipelineDecision an).generate_ad = true
  exact h3

/-- Witness for the amended C4 at the concrete touchdown input. -/
theorem C4_creative_failure_witness :
    pyTruthy (resolvedUri reqDemo none) = true ∧
    anTouchdown.success = true ∧
    (pipelineDecision anTouchdown).generate_ad = true ∧
    adFailA.success = false ∧
    analyze_segment reqDemo none { events := [], ads := [] } anTouchdown adFailA =
      Except.ok
        ({ event := scoredRecord reqDemo anTouchdown, ad := none,
           decision_reason := successExplanation anTouchdown },
         { events := [scoredRecord reqDemo anTouchdown], ads := [] }) := by
  have h1 : pyTruthy (resolvedUri reqDemo none) = true := by decide
  have w := C4_creative_failure_amended reqDemo none { events := [], ads := [] }
    anTouchdown adFailA h1 rfl genAd_anTouchdown rfl
  exact ⟨h1, rfl, genAd_anTouchdown, rfl, by simpa using w.1⟩

end SuperBowlAdPulse
